import Mathlib

/-!
Verification of the cloud-agnostic test-orchestration engine: the
`TestRunner` (suite registration, `RunTests`, `runTestSuite`, `runTest`,
`GetSummary`) and the condition-polling primitive
(`BaseTestImplementation.WaitForCondition`).

The embedding is a shallow one.  Go functions of type
`func(TestInterface) error` are invoked at most once per run, so each is
modelled by the `Option Err` value it returns when invoked (`none` = nil
error).  Wall-clock time is modelled by a `Nat` counter (the `Run`
function of a test advances it by the test's `RunDuration`; the poller's
`time.Sleep(100 * time.Millisecond)` advances it by 100, in
milliseconds).  Side effects that the claims talk about — which callback
was invoked, and the cleanup warning printed by `fmt.Printf` — are
recorded in an explicit event trace.  `fmt.Errorf("...: %w", err)`
wrapping is modelled by the `Err.wrap` constructor.
-/

namespace CloudProviderTesting

/-- Errors.  `Err.msg` models an error built from a plain message
(`fmt.Errorf` without `%w`); `Err.wrap context cause` models
`fmt.Errorf(context ++ ": %w", cause)`. -/
inductive Err where
  | msg (s : String) : Err
  | wrap (context : String) (cause : Err) : Err
deriving DecidableEq, Repr

/-- Observable side effects of a run: which setup / run / cleanup /
teardown callbacks were invoked, and the warning printed when a cleanup
fails. -/
inductive Event where
  | setupInvoked (suiteName : String) : Event
  | runInvoked (testName : String) : Event
  | cleanupInvoked (testName : String) : Event
  | cleanupWarned (testName : String) (e : Err) : Event
  | teardownInvoked (suiteName : String) : Event
deriving DecidableEq, Repr

/-- A single test (source struct `Test`).  The Go field `Run` is a
function `func(TestInterface) error`, invoked at most once per run; it is
modelled by the error it returns (`none` = success) plus `RunDuration`,
the wall-clock time that elapses while it executes.  `Cleanup` is
`none` when no cleanup function is defined, and `some r` when a cleanup
function is defined and returns `r` when invoked. -/
structure Test where
  Name : String
  Description : String
  Run : Option Err
  RunDuration : Nat
  Skip : Bool
  SkipReason : String
  Timeout : Nat
  Dependencies : List String
  Cleanup : Option (Option Err)
deriving DecidableEq, Repr

/-- A test suite (source struct `TestSuite`).  `Setup` / `Teardown` are
`none` when the corresponding function field is nil, and `some r` when
the function is defined and returns `r` when invoked. -/
structure TestSuite where
  Name : String
  Description : String
  Tests : List Test
  Setup : Option (Option Err)
  Teardown : Option (Option Err)
  Dependencies : List String
deriving DecidableEq, Repr

/-- The result of a single test (source struct `TestResult`). -/
structure TestResult where
  Test : Test
  Success : Bool
  Error : Option Err
  Duration : Nat
  StartTime : Nat
  EndTime : Nat
deriving DecidableEq, Repr

/-- The mutable state threaded through a run: the runner's `Results`
slice, the trace of observable side effects, and the wall clock. -/
structure RunState where
  Results : List TestResult
  trace : List Event
  now : Nat
deriving DecidableEq, Repr

/-- The test runner (source struct `TestRunner`).  The `TestInterface`
handle is opaque to the orchestrator and is elided; the mutex only
guards concurrent access and has no sequential semantics. -/
structure TestRunner where
  TestSuites : List TestSuite
  Results : List TestResult
deriving DecidableEq, Repr

/-- Source `NewTestRunner`: empty run plan, empty results. -/
def NewTestRunner : TestRunner :=
  { TestSuites := [], Results := [] }

/-- Source `TestRunner.AddTestSuite`: appends a suite to the run plan. -/
def TestRunner.AddTestSuite (tr : TestRunner) (suite : TestSuite) : TestRunner :=
  { tr with TestSuites := tr.TestSuites ++ [suite] }

/-- Source `TestRunner.runTest`.  A skipped test appends a zero-valued
result with `Success := true` and returns nil without invoking anything.
Otherwise the deadline context derived from `test.Timeout` is advisory
only (it is never threaded into `Run`, so it has no effect and is elided
here); `Run` is invoked between two clock readings, the result is
appended, then `Cleanup` (if defined) is invoked, its error only warned
about; the procedure returns `Run`'s error. -/
def TestRunner.runTest (st : RunState) (test : Test) : RunState × Option Err :=
  if test.Skip then
    ({ st with Results := st.Results ++
        [{ Test := test, Success := true, Error := none,
           Duration := 0, StartTime := 0, EndTime := 0 }] }, none)
  else
    let startTime := st.now
    let err := test.Run
    let endTime := st.now + test.RunDuration
    let result : TestResult :=
      { Test := test, Success := err.isNone, Error := err,
        Duration := endTime - startTime, StartTime := startTime, EndTime := endTime }
    let st1 : RunState :=
      { st with Results := st.Results ++ [result],
                trace := st.trace ++ [Event.runInvoked test.Name],
                now := endTime }
    let st2 : RunState :=
      match test.Cleanup with
      | none => st1
      | some cleanupResult =>
        let st1c := { st1 with trace := st1.trace ++ [Event.cleanupInvoked test.Name] }
        match cleanupResult with
        | none => st1c
        | some cleanupErr =>
          { st1c with trace := st1c.trace ++ [Event.cleanupWarned test.Name cleanupErr] }
    (st2, err)

/-- The `for _, test := range suite.Tests` loop of source
`TestRunner.runTestSuite`: run each test in order; on a non-nil error
stop and return it wrapped with the test and suite names. -/
def TestRunner.runTestsLoop (st : RunState) (suiteName : String) :
    List Test → RunState × Option Err
  | [] => (st, none)
  | test :: rest =>
    match TestRunner.runTest st test with
    | (st1, some e) =>
      (st1, some (Err.wrap ("failed to run test " ++ test.Name ++ " in suite " ++ suiteName) e))
    | (st1, none) => TestRunner.runTestsLoop st1 suiteName rest

/-- The part of source `TestRunner.runTestSuite` after setup: the test
loop, then (only if the loop returned nil) the teardown. -/
def TestRunner.runSuiteBody (st : RunState) (suite : TestSuite) : RunState × Option Err :=
  match TestRunner.runTestsLoop st suite.Name suite.Tests with
  | (st1, some e) => (st1, some e)
  | (st1, none) =>
    match suite.Teardown with
    | none => (st1, none)
    | some teardownResult =>
      let st2 := { st1 with trace := st1.trace ++ [Event.teardownInvoked suite.Name] }
      match teardownResult with
      | some e =>
        (st2, some (Err.wrap ("failed to teardown test suite " ++ suite.Name) e))
      | none => (st2, none)

/-- Source `TestRunner.runTestSuite`: invoke `Setup` if defined (a
failure aborts with a wrapped error, before any test runs), then the
test loop and the teardown. -/
def TestRunner.runTestSuite (st : RunState) (suite : TestSuite) : RunState × Option Err :=
  match suite.Setup with
  | none => TestRunner.runSuiteBody st suite
  | some setupResult =>
    let st1 := { st with trace := st.trace ++ [Event.setupInvoked suite.Name] }
    match setupResult with
    | some e => (st1, some (Err.wrap ("failed to setup test suite " ++ suite.Name) e))
    | none => TestRunner.runSuiteBody st1 suite

/-- The `for _, suite := range tr.TestSuites` loop of source
`TestRunner.RunTests`: run each suite in order; on a non-nil error stop
and return it wrapped with the suite name. -/
def TestRunner.runSuitesLoop (st : RunState) : List TestSuite → RunState × Option Err
  | [] => (st, none)
  | suite :: rest =>
    match TestRunner.runTestSuite st suite with
    | (st1, some e) =>
      (st1, some (Err.wrap ("failed to run test suite " ++ suite.Name) e))
    | (st1, none) => TestRunner.runSuitesLoop st1 rest

/-- The initial run state of a runner: its current `Results`, an empty
trace, clock at 0. -/
def TestRunner.initState (tr : TestRunner) : RunState :=
  { Results := tr.Results, trace := [], now := 0 }

/-- Source `TestRunner.RunTests`.  Returns the final state (the Go
method mutates `tr.Results` in place) together with the returned error. -/
def TestRunner.RunTests (tr : TestRunner) : RunState × Option Err :=
  TestRunner.runSuitesLoop tr.initState tr.TestSuites

/-- A summary of test results (source struct `TestSummary`). -/
structure TestSummary where
  TotalTests : Nat
  PassedTests : Nat
  FailedTests : Nat
  SkippedTests : Nat
  TotalDuration : Nat
deriving DecidableEq, Repr

/-- The body of the `for _, result := range tr.Results` loop of source
`TestRunner.GetSummary`: add the duration, then branch on the skip flag
first and the success flag second. -/
def summaryStep (summary : TestSummary) (result : TestResult) : TestSummary :=
  let summary := { summary with TotalDuration := summary.TotalDuration + result.Duration }
  if result.Test.Skip then
    { summary with SkippedTests := summary.SkippedTests + 1 }
  else if result.Success then
    { summary with PassedTests := summary.PassedTests + 1 }
  else
    { summary with FailedTests := summary.FailedTests + 1 }

/-- Source `TestRunner.GetSummary`, as a function of the results list it
reads. -/
def TestRunner.GetSummary (Results : List TestResult) : TestSummary :=
  Results.foldl summaryStep
    { TotalTests := Results.length, PassedTests := 0, FailedTests := 0,
      SkippedTests := 0, TotalDuration := 0 }

/-- The trace fragment produced by the cleanup step of `runTest` for a
non-skipped test: nothing when no cleanup is defined, the invocation
event when it is, plus the warning event when it fails. -/
def cleanupTrace (test : Test) : List Event :=
  match test.Cleanup with
  | none => []
  | some none => [Event.cleanupInvoked test.Name]
  | some (some cleanupErr) =>
    [Event.cleanupInvoked test.Name, Event.cleanupWarned test.Name cleanupErr]

/-- A condition to wait for (source struct `TestCondition`).  The Go
field `Type` is renamed `ConditionType` (`Type` is reserved in Lean).
The Go `CheckFunction` field is a nilable closure whose behaviour may
differ between invocations; it is modelled as an optional function from
the invocation index.  `Timeout` is in milliseconds. -/
structure TestCondition where
  ConditionType : String
  Status : String
  Reason : String
  Message : String
  Timeout : Nat
  CheckFunction : Option (Nat → Bool × Option Err)

/-- The outcome of one call to the poller, instrumented with the number
of check-function invocations performed and the elapsed time (ms) at
which the poller returned. -/
structure PollResult where
  res : Option Err
  calls : Nat
  elapsed : Nat
deriving DecidableEq, Repr

/-- The `for time.Now().Before(deadline)` loop of source
`BaseTestImplementation.WaitForCondition`.  `now` is the elapsed time in
ms (the loop starts at 0), `k` the next invocation index; each iteration
invokes the check function (if non-nil) — a non-nil error or `met =
true` returns immediately — and otherwise sleeps 100 ms. -/
def pollLoop (check : Option (Nat → Bool × Option Err)) (condType : String)
    (deadline : Nat) (now : Nat) (k : Nat) : PollResult :=
  if _h : now < deadline then
    match check with
    | some f =>
      match f k with
      | (_, some e) => { res := some e, calls := k + 1, elapsed := now }
      | (true, none) => { res := none, calls := k + 1, elapsed := now }
      | (false, none) => pollLoop check condType deadline (now + 100) (k + 1)
    | none => pollLoop check condType deadline (now + 100) (k + 1)
  else
    { res := some (Err.msg ("condition not met within timeout: " ++ condType)),
      calls := k, elapsed := now }
termination_by deadline - now
decreasing_by all_goals omega

/-- The effective timeout of source `WaitForCondition`:
`timeout := condition.Timeout; if timeout == 0 { timeout = 30 * time.Second }`
(30 s = 30000 ms). -/
def TestCondition.effectiveTimeout (c : TestCondition) : Nat :=
  if c.Timeout = 0 then 30000 else c.Timeout

/-- Source `BaseTestImplementation.WaitForCondition`, instrumented: the
deadline is `now + timeout` with the clock starting at 0. -/
def waitForConditionRun (c : TestCondition) : PollResult :=
  pollLoop c.CheckFunction c.ConditionType c.effectiveTimeout 0 0

/-- Source `BaseTestImplementation.WaitForCondition`: the error it
returns. -/
def BaseTestImplementation.WaitForCondition (c : TestCondition) : Option Err :=
  (waitForConditionRun c).res

/-! Helper lemmas about the summary fold. -/

/-- Folding `summaryStep` over a list from any accumulator adds the
three counts and the duration sum to the accumulator, leaving
`TotalTests` untouched. -/
theorem foldl_summaryStep (l : List TestResult) (acc : TestSummary) :
    l.foldl summaryStep acc =
      { TotalTests := acc.TotalTests,
        PassedTests := acc.PassedTests + l.countP (fun r => r.Success && !r.Test.Skip),
        FailedTests := acc.FailedTests + l.countP (fun r => !r.Success && !r.Test.Skip),
        SkippedTests := acc.SkippedTests + l.countP (fun r => r.Test.Skip),
        TotalDuration := acc.TotalDuration + (l.map TestResult.Duration).sum } := by
  induction l generalizing acc with
  | nil => simp
  | cons r tl ih =>
    rw [List.foldl_cons, ih]
    cases hskip : r.Test.Skip <;> cases hsucc : r.Success <;>
      simp [summaryStep, hskip, hsucc, List.countP_cons] <;> omega

/-- Every result satisfies exactly one of the three count predicates, so
the counts partition the length. -/
theorem length_eq_countP_partition (l : List TestResult) :
    l.length =
      l.countP (fun r => r.Success && !r.Test.Skip) +
      l.countP (fun r => !r.Success && !r.Test.Skip) +
      l.countP (fun r => r.Test.Skip) := by
  induction l with
  | nil => simp
  | cons r tl ih =>
    cases hskip : r.Test.Skip <;> cases hsucc : r.Success <;>
      simp [List.countP_cons, hskip, hsucc] <;> omega

/-- C6: `GetSummary` computes total = length, skipped = count of results
whose `Test.Skip` is true, passed = count with `Success` true and
`Test.Skip` false, failed = count with `Success` false and `Test.Skip`
false, and total duration = sum of the durations; the skip flag is
branched on before the success flag, so a skipped result is counted as
neither passed nor failed. -/
theorem GetSummary_counts (Results : List TestResult) :
    TestRunner.GetSummary Results =
      { TotalTests := Results.length,
        PassedTests := Results.countP (fun r => r.Success && !r.Test.Skip),
        FailedTests := Results.countP (fun r => !r.Success && !r.Test.Skip),
        SkippedTests := Results.countP (fun r => r.Test.Skip),
        TotalDuration := (Results.map TestResult.Duration).sum } := by
  rw [TestRunner.GetSummary, foldl_summaryStep]
  simp

/-- C10: the summary satisfies the partition invariant
`TotalTests = PassedTests + FailedTests + SkippedTests`. -/
theorem GetSummary_total_partition (Results : List TestResult) :
    (TestRunner.GetSummary Results).TotalTests =
      (TestRunner.GetSummary Results).PassedTests +
      (TestRunner.GetSummary Results).FailedTests +
      (TestRunner.GetSummary Results).SkippedTests := by
  rw [TestRunner.GetSummary, foldl_summaryStep]
  simpa using length_eq_countP_partition Results

/-- C5: a test whose `Skip` flag is true appends exactly one result with
`Success := true` (the skip flag carried inside its `Test` field), the
procedure returns no error, and the trace is unchanged — neither `Run`
nor `Cleanup` is invoked. -/
theorem runTest_skip_vacuous_success (st : RunState) (t : Test) (hskip : t.Skip = true) :
    TestRunner.runTest st t =
      ({ st with Results := st.Results ++
          [{ Test := t, Success := true, Error := none,
             Duration := 0, StartTime := 0, EndTime := 0 }] }, none) := by
  simp [TestRunner.runTest, hskip]

/-- An empty run state, used by concrete witnesses. -/
def emptyState : RunState :=
  { Results := [], trace := [], now := 0 }

/-- A concrete skipped test with a cleanup function defined, to witness
that skipping bypasses it. -/
def sampleSkippedTest : Test :=
  { Name := ("t-skip"), Description := ("a skipped test"), Run := some (Err.msg ("never run")),
    RunDuration := 3, Skip := true, SkipReason := ("not supported"), Timeout := 0,
    Dependencies := [], Cleanup := some (some (Err.msg ("never invoked"))) }

/-- C5 witness: the skip theorem applied at a concrete skipped test. -/
theorem runTest_skip_vacuous_success_witness :
    sampleSkippedTest.Skip = true ∧
    TestRunner.runTest emptyState sampleSkippedTest =
      ({ emptyState with Results := emptyState.Results ++
          [{ Test := sampleSkippedTest, Success := true, Error := none,
             Duration := 0, StartTime := 0, EndTime := 0 }] }, none) :=
  ⟨rfl, runTest_skip_vacuous_success emptyState sampleSkippedTest rfl⟩

/-- C9: for a non-skipped test with a cleanup function defined, the
cleanup is invoked after `Run` completes whatever `Run` returned; a
cleanup failure yields only a warning event: the appended result and the
returned error (exactly `Run`'s error) do not depend on the cleanup
outcome. -/
theorem runTest_cleanup_warning_only (st : RunState) (t : Test) (cres : Option Err)
    (hskip : t.Skip = false) (hcleanup : t.Cleanup = some cres) :
    TestRunner.runTest st t =
      ({ st with
          Results := st.Results ++
            [{ Test := t, Success := t.Run.isNone, Error := t.Run,
               Duration := t.RunDuration, StartTime := st.now,
               EndTime := st.now + t.RunDuration }],
          trace := st.trace ++ [Event.runInvoked t.Name, Event.cleanupInvoked t.Name] ++
            (match cres with
             | none => []
             | some cleanupErr => [Event.cleanupWarned t.Name cleanupErr]),
          now := st.now + t.RunDuration },
       t.Run) := by
  cases cres <;>
    simp [TestRunner.runTest, hskip, hcleanup, Nat.add_sub_cancel_left, List.append_assoc]

/-- A concrete test whose run fails and whose cleanup also fails, to
witness that the cleanup failure is only warned about. -/
def sampleCleanupTest : Test :=
  { Name := ("t-clean"), Description := ("failing run with failing cleanup"),
    Run := some (Err.msg ("run failed")), RunDuration := 7, Skip := false,
    SkipReason := (""), Timeout := 0, Dependencies := [],
    Cleanup := some (some (Err.msg ("cleanup failed"))) }

/-- C9 witness: the cleanup theorem applied at a concrete test whose run
and cleanup both fail. -/
theorem runTest_cleanup_warning_only_witness :
    sampleCleanupTest.Skip = false ∧
    sampleCleanupTest.Cleanup = some (some (Err.msg ("cleanup failed"))) ∧
    TestRunner.runTest emptyState sampleCleanupTest =
      ({ emptyState with
          Results := emptyState.Results ++
            [{ Test := sampleCleanupTest, Success := sampleCleanupTest.Run.isNone,
               Error := sampleCleanupTest.Run, Duration := sampleCleanupTest.RunDuration,
               StartTime := emptyState.now,
               EndTime := emptyState.now + sampleCleanupTest.RunDuration }],
          trace := emptyState.trace ++
            [Event.runInvoked sampleCleanupTest.Name,
             Event.cleanupInvoked sampleCleanupTest.Name] ++
            [Event.cleanupWarned sampleCleanupTest.Name (Err.msg ("cleanup failed"))],
          now := emptyState.now + sampleCleanupTest.RunDuration },
       sampleCleanupTest.Run) :=
  ⟨rfl, rfl,
    runTest_cleanup_warning_only emptyState sampleCleanupTest
      (some (Err.msg ("cleanup failed"))) rfl rfl⟩

/-! Helper lemmas about the run loops. -/

/-- The state in which a suite's tests start: the setup step of
`runTestSuite` only appends the invocation event when `Setup` is
defined. -/
def setupStateOf (st : RunState) (suite : TestSuite) : RunState :=
  match suite.Setup with
  | none => st
  | some _ => { st with trace := st.trace ++ [Event.setupInvoked suite.Name] }

/-- If the test loop runs a prefix without error, running the whole list
continues from the reached state. -/
theorem runTestsLoop_append {st st1 : RunState} {name : String} {tpre : List Test}
    (rest : List Test)
    (h : TestRunner.runTestsLoop st name tpre = (st1, none)) :
    TestRunner.runTestsLoop st name (tpre ++ rest) =
      TestRunner.runTestsLoop st1 name rest := by
  induction tpre generalizing st with
  | nil =>
    simp only [TestRunner.runTestsLoop, Prod.mk.injEq] at h
    rw [List.nil_append, h.1]
  | cons t ts ih =>
    simp only [List.cons_append, TestRunner.runTestsLoop] at h ⊢
    cases hr : TestRunner.runTest st t with
    | mk st' e? =>
      rw [hr] at h
      cases e? with
      | none => exact ih h
      | some e =>
        injection h with h1 h2
        exact Option.noConfusion h2

/-- If the suites loop runs a prefix without error, running the whole
list continues from the reached state. -/
theorem runSuitesLoop_append {st st1 : RunState} {pre : List TestSuite}
    (rest : List TestSuite)
    (h : TestRunner.runSuitesLoop st pre = (st1, none)) :
    TestRunner.runSuitesLoop st (pre ++ rest) =
      TestRunner.runSuitesLoop st1 rest := by
  induction pre generalizing st with
  | nil =>
    simp only [TestRunner.runSuitesLoop, Prod.mk.injEq] at h
    rw [List.nil_append, h.1]
  | cons s ss ih =>
    simp only [List.cons_append, TestRunner.runSuitesLoop] at h ⊢
    cases hr : TestRunner.runTestSuite st s with
    | mk st' e? =>
      rw [hr] at h
      cases e? with
      | none => exact ih h
      | some e =>
        injection h with h1 h2
        exact Option.noConfusion h2

/-- When a suite's setup is absent or succeeds, `runTestSuite` proceeds
to the suite body from `setupStateOf`. -/
theorem runTestSuite_setup_ok {s : TestSuite} (st : RunState)
    (hsetup : s.Setup = none ∨ s.Setup = some none) :
    TestRunner.runTestSuite st s = TestRunner.runSuiteBody (setupStateOf st s) s := by
  rcases hsetup with h | h <;> simp [TestRunner.runTestSuite, setupStateOf, h]

/-- Running a non-skipped test whose `Run` returns an error appends the
failing result, emits the run event and the cleanup events, and returns
that error unwrapped. -/
theorem runTest_not_skipped_fails {t : Test} {e : Err} (st : RunState)
    (hskip : t.Skip = false) (hrun : t.Run = some e) :
    TestRunner.runTest st t =
      ({ st with
          Results := st.Results ++
            [{ Test := t, Success := false, Error := some e,
               Duration := t.RunDuration, StartTime := st.now,
               EndTime := st.now + t.RunDuration }],
          trace := st.trace ++ Event.runInvoked t.Name :: cleanupTrace t,
          now := st.now + t.RunDuration }, some e) := by
  cases hcl : t.Cleanup with
  | none =>
    simp [TestRunner.runTest, cleanupTrace, hskip, hrun, hcl, Nat.add_sub_cancel_left]
  | some co =>
    cases co with
    | none =>
      simp [TestRunner.runTest, cleanupTrace, hskip, hrun, hcl,
        Nat.add_sub_cancel_left, List.append_assoc]
    | some ce =>
      simp [TestRunner.runTest, cleanupTrace, hskip, hrun, hcl,
        Nat.add_sub_cancel_left, List.append_assoc]

/-- C1: on the first failing test run, the run aborts at once: the
returned error is the double-wrapped run error, the final results are
exactly those accumulated before the failure plus the failing test's own
result, and the trace ends with that test's run and cleanup events — so
the remaining tests of the suite, its teardown, and all later suites are
never executed. -/
theorem RunTests_aborts_on_test_error
    (tr : TestRunner) (pre post : List TestSuite) (s : TestSuite)
    (tpre tpost : List Test) (t : Test) (e : Err) (st1 st2 : RunState)
    (hsuites : tr.TestSuites = pre ++ s :: post)
    (hpre : TestRunner.runSuitesLoop tr.initState pre = (st1, none))
    (hsetup : s.Setup = none ∨ s.Setup = some none)
    (htests : s.Tests = tpre ++ t :: tpost)
    (htpre : TestRunner.runTestsLoop (setupStateOf st1 s) s.Name tpre = (st2, none))
    (hskip : t.Skip = false) (hrun : t.Run = some e) :
    TestRunner.RunTests tr =
      ({ st2 with
          Results := st2.Results ++
            [{ Test := t, Success := false, Error := some e,
               Duration := t.RunDuration, StartTime := st2.now,
               EndTime := st2.now + t.RunDuration }],
          trace := st2.trace ++ Event.runInvoked t.Name :: cleanupTrace t,
          now := st2.now + t.RunDuration },
       some (Err.wrap ("failed to run test suite " ++ s.Name)
         (Err.wrap ("failed to run test " ++ t.Name ++ " in suite " ++ s.Name) e))) := by
  have hfail := runTest_not_skipped_fails (t := t) (e := e) st2 hskip hrun
  have hloop : TestRunner.runTestsLoop (setupStateOf st1 s) s.Name s.Tests =
      ({ st2 with
          Results := st2.Results ++
            [{ Test := t, Success := false, Error := some e,
               Duration := t.RunDuration, StartTime := st2.now,
               EndTime := st2.now + t.RunDuration }],
          trace := st2.trace ++ Event.runInvoked t.Name :: cleanupTrace t,
          now := st2.now + t.RunDuration },
       some (Err.wrap ("failed to run test " ++ t.Name ++ " in suite " ++ s.Name) e)) := by
    rw [htests, runTestsLoop_append (t :: tpost) htpre]
    simp only [TestRunner.runTestsLoop]
    rw [hfail]
  have hsuite : TestRunner.runTestSuite st1 s =
      ({ st2 with
          Results := st2.Results ++
            [{ Test := t, Success := false, Error := some e,
               Duration := t.RunDuration, StartTime := st2.now,
               EndTime := st2.now + t.RunDuration }],
          trace := st2.trace ++ Event.runInvoked t.Name :: cleanupTrace t,
          now := st2.now + t.RunDuration },
       some (Err.wrap ("failed to run test " ++ t.Name ++ " in suite " ++ s.Name) e)) := by
    rw [runTestSuite_setup_ok st1 hsetup]
    simp only [TestRunner.runSuiteBody]
    rw [hloop]
  rw [TestRunner.RunTests, hsuites, runSuitesLoop_append (s :: post) hpre]
  simp only [TestRunner.runSuitesLoop]
  rw [hsuite]

/-! Concrete run plans used by witnesses and counterexamples.  The
three-test suite mirrors the spec's end-to-end scenario
`[pass, skip, fail]` with succeeding setup and teardown. -/

/-- A concrete passing test. -/
def passingTest : Test :=
  { Name := ("t-pass"), Description := ("a passing test"), Run := none, RunDuration := 2,
    Skip := false, SkipReason := (""), Timeout := 0, Dependencies := [], Cleanup := none }

/-- A concrete failing test. -/
def failingTest : Test :=
  { Name := ("t-fail"), Description := ("a failing test"), Run := some (Err.msg ("boom")),
    RunDuration := 5, Skip := false, SkipReason := (""), Timeout := 0, Dependencies := [],
    Cleanup := none }

/-- A suite running pass, skip, fail in order, with defined succeeding
setup and teardown. -/
def suiteWithFailingTest : TestSuite :=
  { Name := ("s1"), Description := ("pass, skip, fail"),
    Tests := [passingTest, sampleSkippedTest, failingTest],
    Setup := some none, Teardown := some none, Dependencies := [] }

/-- A runner registering only `suiteWithFailingTest`. -/
def runnerWithFailingTest : TestRunner :=
  { TestSuites := [suiteWithFailingTest], Results := [] }

/-- The run state reached after the setup of `suiteWithFailingTest` and
its first two tests (pass, then skip). -/
def preFailState : RunState :=
  { Results :=
      [{ Test := passingTest, Success := true, Error := none,
         Duration := 2, StartTime := 0, EndTime := 2 },
       { Test := sampleSkippedTest, Success := true, Error := none,
         Duration := 0, StartTime := 0, EndTime := 0 }],
    trace := [Event.setupInvoked ("s1"), Event.runInvoked ("t-pass")],
    now := 2 }

/-- C1 witness: the abort theorem applied to the concrete
pass/skip/fail plan, all hypotheses discharged by evaluation. -/
theorem RunTests_aborts_on_test_error_witness :
    runnerWithFailingTest.TestSuites = [] ++ suiteWithFailingTest :: [] ∧
    TestRunner.runSuitesLoop runnerWithFailingTest.initState [] =
      (runnerWithFailingTest.initState, none) ∧
    (suiteWithFailingTest.Setup = none ∨ suiteWithFailingTest.Setup = some none) ∧
    suiteWithFailingTest.Tests = [passingTest, sampleSkippedTest] ++ failingTest :: [] ∧
    TestRunner.runTestsLoop
      (setupStateOf runnerWithFailingTest.initState suiteWithFailingTest)
      suiteWithFailingTest.Name [passingTest, sampleSkippedTest] = (preFailState, none) ∧
    failingTest.Skip = false ∧
    failingTest.Run = some (Err.msg ("boom")) ∧
    TestRunner.RunTests runnerWithFailingTest =
      ({ preFailState with
          Results := preFailState.Results ++
            [{ Test := failingTest, Success := false, Error := some (Err.msg ("boom")),
               Duration := failingTest.RunDuration, StartTime := preFailState.now,
               EndTime := preFailState.now + failingTest.RunDuration }],
          trace := preFailState.trace ++
            Event.runInvoked failingTest.Name :: cleanupTrace failingTest,
          now := preFailState.now + failingTest.RunDuration },
       some (Err.wrap ("failed to run test suite " ++ suiteWithFailingTest.Name)
         (Err.wrap ("failed to run test " ++ failingTest.Name ++ " in suite " ++
            suiteWithFailingTest.Name) (Err.msg ("boom"))))) :=
  ⟨rfl, rfl, Or.inr rfl, rfl, rfl, rfl, rfl,
    RunTests_aborts_on_test_error runnerWithFailingTest [] [] suiteWithFailingTest
      [passingTest, sampleSkippedTest] [] failingTest (Err.msg ("boom"))
      runnerWithFailingTest.initState preFailState
      rfl rfl (Or.inr rfl) rfl rfl rfl rfl⟩

/-- C3: a suite whose setup fails halts the run with the double-wrapped
setup error; the only new observable effect is the setup invocation —
no test result is appended, no test, cleanup or teardown of the suite is
invoked, and later suites never execute. -/
theorem RunTests_aborts_on_setup_error
    (tr : TestRunner) (pre post : List TestSuite) (s : TestSuite) (e : Err)
    (st1 : RunState)
    (hsuites : tr.TestSuites = pre ++ s :: post)
    (hpre : TestRunner.runSuitesLoop tr.initState pre = (st1, none))
    (hsetup : s.Setup = some (some e)) :
    TestRunner.RunTests tr =
      ({ st1 with trace := st1.trace ++ [Event.setupInvoked s.Name] },
       some (Err.wrap ("failed to run test suite " ++ s.Name)
         (Err.wrap ("failed to setup test suite " ++ s.Name) e))) ∧
    (TestRunner.RunTests tr).1.Results = st1.Results := by
  have hsuite : TestRunner.runTestSuite st1 s =
      ({ st1 with trace := st1.trace ++ [Event.setupInvoked s.Name] },
       some (Err.wrap ("failed to setup test suite " ++ s.Name) e)) := by
    simp [TestRunner.runTestSuite, hsetup]
  have hmain : TestRunner.RunTests tr =
      ({ st1 with trace := st1.trace ++ [Event.setupInvoked s.Name] },
       some (Err.wrap ("failed to run test suite " ++ s.Name)
         (Err.wrap ("failed to setup test suite " ++ s.Name) e))) := by
    rw [TestRunner.RunTests, hsuites, runSuitesLoop_append (s :: post) hpre]
    simp only [TestRunner.runSuitesLoop]
    rw [hsuite]
  exact ⟨hmain, by rw [hmain]⟩

/-- A suite whose setup fails. -/
def setupFailSuite : TestSuite :=
  { Name := ("s-setup"), Description := ("suite whose setup fails"),
    Tests := [passingTest], Setup := some (some (Err.msg ("setup failed"))),
    Teardown := some none, Dependencies := [] }

/-- A runner registering only `setupFailSuite`. -/
def runnerSetupFail : TestRunner :=
  { TestSuites := [setupFailSuite], Results := [] }

/-- C3 witness: the setup-failure theorem applied to a concrete one
suite plan. -/
theorem RunTests_aborts_on_setup_error_witness :
    runnerSetupFail.TestSuites = [] ++ setupFailSuite :: [] ∧
    TestRunner.runSuitesLoop runnerSetupFail.initState [] =
      (runnerSetupFail.initState, none) ∧
    setupFailSuite.Setup = some (some (Err.msg ("setup failed"))) ∧
    (TestRunner.RunTests runnerSetupFail =
      ({ runnerSetupFail.initState with
          trace := runnerSetupFail.initState.trace ++
            [Event.setupInvoked setupFailSuite.Name] },
       some (Err.wrap ("failed to run test suite " ++ setupFailSuite.Name)
         (Err.wrap ("failed to setup test suite " ++ setupFailSuite.Name)
           (Err.msg ("setup failed"))))) ∧
     (TestRunner.RunTests runnerSetupFail).1.Results =
       runnerSetupFail.initState.Results) :=
  ⟨rfl, rfl, rfl,
    RunTests_aborts_on_setup_error runnerSetupFail [] [] setupFailSuite
      (Err.msg ("setup failed")) runnerSetupFail.initState rfl rfl rfl⟩

/-- C4 (amended): when a suite's tests all complete without a run error
and its teardown fails with `e`, the results accumulated for its tests
are retained unchanged and the run returns the teardown error wrapped
twice (suite context around teardown context around `e`) — not `e`
itself. -/
theorem RunTests_teardown_error_keeps_results
    (tr : TestRunner) (pre post : List TestSuite) (s : TestSuite) (e : Err)
    (st1 st2 : RunState)
    (hsuites : tr.TestSuites = pre ++ s :: post)
    (hpre : TestRunner.runSuitesLoop tr.initState pre = (st1, none))
    (hsetup : s.Setup = none ∨ s.Setup = some none)
    (htests : TestRunner.runTestsLoop (setupStateOf st1 s) s.Name s.Tests = (st2, none))
    (hteardown : s.Teardown = some (some e)) :
    TestRunner.RunTests tr =
      ({ st2 with trace := st2.trace ++ [Event.teardownInvoked s.Name] },
       some (Err.wrap ("failed to run test suite " ++ s.Name)
         (Err.wrap ("failed to teardown test suite " ++ s.Name) e))) ∧
    (TestRunner.RunTests tr).1.Results = st2.Results := by
  have hbody : TestRunner.runSuiteBody (setupStateOf st1 s) s =
      ({ st2 with trace := st2.trace ++ [Event.teardownInvoked s.Name] },
       some (Err.wrap ("failed to teardown test suite " ++ s.Name) e)) := by
    simp only [TestRunner.runSuiteBody]
    rw [htests]
    simp [hteardown]
  have hsuite := (runTestSuite_setup_ok st1 hsetup).trans hbody
  have hmain : TestRunner.RunTests tr =
      ({ st2 with trace := st2.trace ++ [Event.teardownInvoked s.Name] },
       some (Err.wrap ("failed to run test suite " ++ s.Name)
         (Err.wrap ("failed to teardown test suite " ++ s.Name) e))) := by
    rw [TestRunner.RunTests, hsuites, runSuitesLoop_append (s :: post) hpre]
    simp only [TestRunner.runSuitesLoop]
    rw [hsuite]
  exact ⟨hmain, by rw [hmain]⟩

/-- A suite with one passing test whose teardown fails. -/
def teardownFailSuite : TestSuite :=
  { Name := ("s-td"), Description := ("suite whose teardown fails"),
    Tests := [passingTest], Setup := none,
    Teardown := some (some (Err.msg ("teardown failed"))), Dependencies := [] }

/-- A runner registering only `teardownFailSuite`. -/
def runnerTeardownFail : TestRunner :=
  { TestSuites := [teardownFailSuite], Results := [] }

/-- The run state reached after `teardownFailSuite`'s single passing
test. -/
def afterTeardownTestsState : RunState :=
  { Results :=
      [{ Test := passingTest, Success := true, Error := none,
         Duration := 2, StartTime := 0, EndTime := 2 }],
    trace := [Event.runInvoked ("t-pass")],
    now := 2 }

/-- C4 counterexample: on the concrete teardown-failure plan the error
returned by `RunTests` is the wrapped error, not the teardown error
itself. -/
theorem RunTests_teardown_error_not_raw :
    (TestRunner.RunTests runnerTeardownFail).2 ≠ some (Err.msg ("teardown failed")) ∧
    (TestRunner.RunTests runnerTeardownFail).2 =
      some (Err.wrap ("failed to run test suite s-td")
        (Err.wrap ("failed to teardown test suite s-td")
          (Err.msg ("teardown failed")))) := by
  exact ⟨by decide, by decide⟩

/-- C4 witness: the teardown-failure theorem applied to the concrete
plan. -/
theorem RunTests_teardown_error_keeps_results_witness :
    runnerTeardownFail.TestSuites = [] ++ teardownFailSuite :: [] ∧
    TestRunner.runSuitesLoop runnerTeardownFail.initState [] =
      (runnerTeardownFail.initState, none) ∧
    (teardownFailSuite.Setup = none ∨ teardownFailSuite.Setup = some none) ∧
    TestRunner.runTestsLoop (setupStateOf runnerTeardownFail.initState teardownFailSuite)
      teardownFailSuite.Name teardownFailSuite.Tests = (afterTeardownTestsState, none) ∧
    teardownFailSuite.Teardown = some (some (Err.msg ("teardown failed"))) ∧
    (TestRunner.RunTests runnerTeardownFail =
      ({ afterTeardownTestsState with
          trace := afterTeardownTestsState.trace ++
            [Event.teardownInvoked teardownFailSuite.Name] },
       some (Err.wrap ("failed to run test suite " ++ teardownFailSuite.Name)
         (Err.wrap ("failed to teardown test suite " ++ teardownFailSuite.Name)
           (Err.msg ("teardown failed"))))) ∧
     (TestRunner.RunTests runnerTeardownFail).1.Results =
       afterTeardownTestsState.Results) :=
  ⟨rfl, rfl, Or.inl rfl, rfl, rfl,
    RunTests_teardown_error_keeps_results runnerTeardownFail [] [] teardownFailSuite
      (Err.msg ("teardown failed")) runnerTeardownFail.initState afterTeardownTestsState
      rfl rfl (Or.inl rfl) rfl rfl⟩

/-! Characterisation of when `RunTests` returns nil. -/

/-- A test's run step produces no error: it is skipped, or its `Run`
returns nil. -/
def Test.runOk (t : Test) : Bool :=
  t.Skip || t.Run.isNone

/-- The suite's setup is absent or succeeds. -/
def TestSuite.setupOk (s : TestSuite) : Bool :=
  match s.Setup with
  | some (some _) => false
  | _ => true

/-- The suite's teardown is absent or succeeds. -/
def TestSuite.teardownOk (s : TestSuite) : Bool :=
  match s.Teardown with
  | some (some _) => false
  | _ => true

/-- The suite completes: setup, every test's run, and teardown all
produce no error. -/
def TestSuite.completesOk (s : TestSuite) : Bool :=
  s.setupOk && s.Tests.all Test.runOk && s.teardownOk

/-- The error `runTest` returns is nil for a skipped test and `Run`'s
error otherwise, independent of the cleanup outcome. -/
theorem runTest_snd (st : RunState) (t : Test) :
    (TestRunner.runTest st t).2 = if t.Skip then none else t.Run := by
  by_cases h : t.Skip
  · simp [TestRunner.runTest, h]
  · cases hcl : t.Cleanup with
    | none => simp [TestRunner.runTest, h, hcl]
    | some co => cases co <;> simp [TestRunner.runTest, h, hcl]

/-- The test loop returns nil exactly when every test's run step
produces no error. -/
theorem runTestsLoop_none_iff (st : RunState) (name : String) (ts : List Test) :
    (TestRunner.runTestsLoop st name ts).2 = none ↔ ts.all Test.runOk = true := by
  induction ts generalizing st with
  | nil => simp [TestRunner.runTestsLoop]
  | cons t rest ih =>
    simp only [TestRunner.runTestsLoop, List.all_cons]
    have hsnd : (TestRunner.runTest st t).2 = if t.Skip then none else t.Run :=
      runTest_snd st t
    cases hr : TestRunner.runTest st t with
    | mk st' e? =>
      rw [hr] at hsnd
      cases e? with
      | none =>
        have hok : Test.runOk t = true := by
          by_cases h : t.Skip
          · simp [Test.runOk, h]
          · rw [if_neg h] at hsnd
            simp only [] at hsnd
            simp [Test.runOk, h, ← hsnd]
        simp [hok, ih st']
      | some e =>
        have hok : Test.runOk t = false := by
          by_cases h : t.Skip
          · rw [if_pos h] at hsnd
            exact absurd hsnd (by simp)
          · rw [if_neg h] at hsnd
            simp [Test.runOk, h, ← hsnd]
        simp [hok]

/-- The suite body returns nil exactly when every test's run step and
the teardown produce no error. -/
theorem runSuiteBody_none_iff (st : RunState) (s : TestSuite) :
    (TestRunner.runSuiteBody st s).2 = none ↔
      (s.Tests.all Test.runOk && s.teardownOk) = true := by
  simp only [TestRunner.runSuiteBody]
  have hl := runTestsLoop_none_iff st s.Name s.Tests
  cases hloop : TestRunner.runTestsLoop st s.Name s.Tests with
  | mk st1 e? =>
    rw [hloop] at hl
    cases e? with
    | some e =>
      have hall : s.Tests.all Test.runOk = false := by
        simpa using hl
      simp [hall]
    | none =>
      have hall : s.Tests.all Test.runOk = true := by
        simpa using hl
      cases htd : s.Teardown with
      | none => simp [hall, TestSuite.teardownOk, htd]
      | some r => cases r <;> simp [hall, TestSuite.teardownOk, htd]

/-- A suite run returns nil exactly when the suite completes. -/
theorem runTestSuite_none_iff (st : RunState) (s : TestSuite) :
    (TestRunner.runTestSuite st s).2 = none ↔ s.completesOk = true := by
  unfold TestSuite.completesOk
  cases hsu : s.Setup with
  | none =>
    simp only [TestRunner.runTestSuite, hsu]
    rw [runSuiteBody_none_iff]
    simp [TestSuite.setupOk, hsu, Bool.and_assoc]
  | some r =>
    cases r with
    | some e => simp [TestRunner.runTestSuite, hsu, TestSuite.setupOk]
    | none =>
      simp only [TestRunner.runTestSuite, hsu]
      rw [runSuiteBody_none_iff]
      simp [TestSuite.setupOk, hsu, Bool.and_assoc]

/-- The suites loop returns nil exactly when every suite completes. -/
theorem runSuitesLoop_none_iff (st : RunState) (suites : List TestSuite) :
    (TestRunner.runSuitesLoop st suites).2 = none ↔
      suites.all TestSuite.completesOk = true := by
  induction suites generalizing st with
  | nil => simp [TestRunner.runSuitesLoop]
  | cons s rest ih =>
    simp only [TestRunner.runSuitesLoop, List.all_cons]
    have hs := runTestSuite_none_iff st s
    cases hr : TestRunner.runTestSuite st s with
    | mk st1 e? =>
      rw [hr] at hs
      cases e? with
      | some e =>
        have hok : s.completesOk = false := by simpa using hs
        simp [hok]
      | none =>
        have hok : s.completesOk = true := by simpa using hs
        simp [hok, ih st1]

/-- C2 (amended): `RunTests` returns nil exactly when every registered
suite ran to completion with no setup, test-run, or teardown error.  In
particular a test whose run function fails makes `RunTests` return a
non-nil error (it does not return nil). -/
theorem RunTests_nil_iff_all_complete (tr : TestRunner) :
    (TestRunner.RunTests tr).2 = none ↔
      tr.TestSuites.all TestSuite.completesOk = true :=
  runSuitesLoop_none_iff tr.initState tr.TestSuites

/-- C2 counterexample: in the concrete plan whose setup and teardown
both succeed but whose third test's run fails, `RunTests` does not
return nil. -/
theorem RunTests_nonnil_on_test_failure :
    (TestRunner.RunTests runnerWithFailingTest).2 ≠ none := by decide

/-- C2 witness: the nil-characterisation instantiated at the concrete
failing plan. -/
theorem RunTests_nil_iff_all_complete_witness :
    ((TestRunner.RunTests runnerWithFailingTest).2 = none ↔
      runnerWithFailingTest.TestSuites.all TestSuite.completesOk = true) :=
  RunTests_nil_iff_all_complete runnerWithFailingTest

/-! Helper lemmas about the poll loop. -/

/-- If the first `j` check invocations report "not yet" and the `j`-th
one returns an error before the deadline, the loop stops right there:
it returns that error unwrapped, having performed exactly `j + 1`
invocations, 100 ms apart. -/
theorem pollLoop_first_error (f : Nat → Bool × Option Err) (ty : String) (e : Err) :
    ∀ (j deadline now k : Nat),
      (∀ m, m < j → f (k + m) = (false, none)) →
      (f (k + j)).2 = some e →
      now + 100 * j < deadline →
      pollLoop (some f) ty deadline now k =
        { res := some e, calls := k + j + 1, elapsed := now + 100 * j } := by
  intro j
  induction j with
  | zero =>
    intro deadline now k hpre herr hlt
    have hnow : now < deadline := by omega
    cases hf : f k with
    | mk met o =>
      have ho : o = some e := by
        have h2 := herr
        rw [show k + 0 = k from rfl, hf] at h2
        exact h2
      subst ho
      conv_lhs => rw [pollLoop]
      simp [hnow, hf]
  | succ j ih =>
    intro deadline now k hpre herr hlt
    have hnow : now < deadline := by omega
    have hf0 : f k = (false, none) := by
      have := hpre 0 (Nat.succ_pos j)
      rwa [show k + 0 = k from rfl] at this
    have h1 : pollLoop (some f) ty deadline now k =
        pollLoop (some f) ty deadline (now + 100) (k + 1) := by
      conv_lhs => rw [pollLoop]
      simp [hnow, hf0]
    have hpre' : ∀ m, m < j → f (k + 1 + m) = (false, none) := by
      intro m hm
      have := hpre (m + 1) (by omega)
      rwa [show k + (m + 1) = k + 1 + m by omega] at this
    have herr' : (f (k + 1 + j)).2 = some e := by
      rwa [show k + 1 + j = k + (j + 1) by omega]
    rw [h1, ih deadline (now + 100) (k + 1) hpre' herr' (by omega)]
    have hcalls : k + 1 + j + 1 = k + (j + 1) + 1 := by omega
    have helapsed : now + 100 + 100 * j = now + 100 * (j + 1) := by omega
    rw [hcalls, helapsed]

/-- If every check invocation reports "not yet", the loop runs out the
deadline and returns the timeout-message error, having probed every
100 ms: `⌈(deadline - now) / 100⌉` further invocations. -/
theorem pollLoop_never_met (f : Nat → Bool × Option Err) (ty : String) (deadline : Nat)
    (hf : ∀ m, f m = (false, none)) :
    ∀ (n now k : Nat), deadline ≤ now + 100 * n →
      pollLoop (some f) ty deadline now k =
        { res := some (Err.msg ("condition not met within timeout: " ++ ty)),
          calls := k + (deadline - now + 99) / 100,
          elapsed := now + 100 * ((deadline - now + 99) / 100) } := by
  intro n
  induction n with
  | zero =>
    intro now k hle
    have hnow : ¬ now < deadline := by omega
    have hz : deadline - now = 0 := by omega
    conv_lhs => rw [pollLoop]
    simp [hnow, hz]
  | succ n ih =>
    intro now k hle
    by_cases hnow : now < deadline
    · have h1 : pollLoop (some f) ty deadline now k =
          pollLoop (some f) ty deadline (now + 100) (k + 1) := by
        conv_lhs => rw [pollLoop]
        simp [hnow, hf k]
      rw [h1, ih (now + 100) (k + 1) (by omega)]
      have hcalls : k + 1 + (deadline - (now + 100) + 99) / 100 =
          k + (deadline - now + 99) / 100 := by omega
      have helapsed : now + 100 + 100 * ((deadline - (now + 100) + 99) / 100) =
          now + 100 * ((deadline - now + 99) / 100) := by omega
      rw [hcalls, helapsed]
    · have hz : deadline - now = 0 := by omega
      conv_lhs => rw [pollLoop]
      simp [hnow, hz]

/-- C7: if an invocation of the check function returns a non-nil error,
the poller stops immediately with exactly that error: no further
invocation is made (exactly `j + 1` calls) and the elapsed time is
`100 j` ms, strictly before the timeout; the earlier `(false, nil)`
returns did not terminate the poll. -/
theorem WaitForCondition_error_terminal
    (c : TestCondition) (f : Nat → Bool × Option Err) (j : Nat) (e : Err)
    (hcf : c.CheckFunction = some f)
    (hpre : ∀ m, m < j → f m = (false, none))
    (herr : (f j).2 = some e)
    (hj : 100 * j < c.effectiveTimeout) :
    BaseTestImplementation.WaitForCondition c = some e ∧
    waitForConditionRun c =
      { res := some e, calls := j + 1, elapsed := 100 * j } := by
  have h := pollLoop_first_error f c.ConditionType e j c.effectiveTimeout 0 0
    (by intro m hm; rw [Nat.zero_add]; exact hpre m hm)
    (by rwa [Nat.zero_add]) (by omega)
  have hrun : waitForConditionRun c =
      { res := some e, calls := j + 1, elapsed := 100 * j } := by
    unfold waitForConditionRun
    rw [hcf, h]
    simp
  exact ⟨by unfold BaseTestImplementation.WaitForCondition; rw [hrun], hrun⟩

/-- A concrete check function: "not yet" twice, then a hard error. -/
def errorAtThirdCheck : Nat → Bool × Option Err :=
  fun k => if k = 2 then (false, some (Err.msg ("probe broke"))) else (false, none)

/-- A concrete condition whose check breaks on its third probe, with a
1000 ms timeout. -/
def cErrCondition : TestCondition :=
  { ConditionType := ("node-ready"), Status := (""), Reason := (""), Message := (""),
    Timeout := 1000, CheckFunction := some errorAtThirdCheck }

/-- C7 witness: the terminal-error theorem applied to the concrete
breaking check. -/
theorem WaitForCondition_error_terminal_witness :
    cErrCondition.CheckFunction = some errorAtThirdCheck ∧
    (∀ m, m < 2 → errorAtThirdCheck m = (false, none)) ∧
    (errorAtThirdCheck 2).2 = some (Err.msg ("probe broke")) ∧
    100 * 2 < cErrCondition.effectiveTimeout ∧
    (BaseTestImplementation.WaitForCondition cErrCondition = some (Err.msg ("probe broke")) ∧
     waitForConditionRun cErrCondition =
       { res := some (Err.msg ("probe broke")), calls := 2 + 1, elapsed := 100 * 2 }) :=
  ⟨rfl, by decide, rfl, by decide,
    WaitForCondition_error_terminal cErrCondition errorAtThirdCheck 2
      (Err.msg ("probe broke")) rfl (by decide) rfl (by decide)⟩

/-- C8 (amended): the timeout is a configuration input, defaulting to
30 s (= 300 probes) when `Timeout` is 0, and on expiry the poller
returns the timeout-message error; the polling interval is fixed at
100 ms (`⌈timeout / 100⌉` probes, not an interval configuration). -/
theorem WaitForCondition_timeout_fixed_interval
    (c : TestCondition) (f : Nat → Bool × Option Err)
    (hcf : c.CheckFunction = some f)
    (hf : ∀ m, f m = (false, none)) :
    BaseTestImplementation.WaitForCondition c =
      some (Err.msg ("condition not met within timeout: " ++ c.ConditionType)) ∧
    (waitForConditionRun c).calls = (c.effectiveTimeout + 99) / 100 ∧
    (waitForConditionRun c).elapsed = 100 * ((c.effectiveTimeout + 99) / 100) ∧
    (c.Timeout = 0 → (waitForConditionRun c).calls = 300) := by
  have h := pollLoop_never_met f c.ConditionType c.effectiveTimeout hf
    c.effectiveTimeout 0 0 (by omega)
  have hrun : waitForConditionRun c =
      { res := some (Err.msg ("condition not met within timeout: " ++ c.ConditionType)),
        calls := (c.effectiveTimeout + 99) / 100,
        elapsed := 100 * ((c.effectiveTimeout + 99) / 100) } := by
    unfold waitForConditionRun
    rw [hcf, h]
    simp
  refine ⟨?_, ?_, ?_, ?_⟩
  · unfold BaseTestImplementation.WaitForCondition
    rw [hrun]
  · rw [hrun]
  · rw [hrun]
  · intro h0
    rw [hrun]
    simp [TestCondition.effectiveTimeout, h0]

/-- A concrete check function that is never met and never errors. -/
def alwaysUnmet : Nat → Bool × Option Err :=
  fun _ => (false, none)

/-- A concrete condition with the default (zero) timeout and a check
that never succeeds. -/
def cTimeoutCondition : TestCondition :=
  { ConditionType := ("lb-ingress"), Status := (""), Reason := (""), Message := (""),
    Timeout := 0, CheckFunction := some alwaysUnmet }

/-- C8 witness: the timeout theorem applied to the never-met check with
the defaulted timeout. -/
theorem WaitForCondition_timeout_fixed_interval_witness :
    cTimeoutCondition.CheckFunction = some alwaysUnmet ∧
    (∀ m, alwaysUnmet m = (false, none)) ∧
    (BaseTestImplementation.WaitForCondition cTimeoutCondition =
      some (Err.msg ("condition not met within timeout: " ++
        cTimeoutCondition.ConditionType)) ∧
     (waitForConditionRun cTimeoutCondition).calls =
       (cTimeoutCondition.effectiveTimeout + 99) / 100 ∧
     (waitForConditionRun cTimeoutCondition).elapsed =
       100 * ((cTimeoutCondition.effectiveTimeout + 99) / 100) ∧
     (cTimeoutCondition.Timeout = 0 →
       (waitForConditionRun cTimeoutCondition).calls = 300)) :=
  ⟨rfl, fun _ => rfl,
    WaitForCondition_timeout_fixed_interval cTimeoutCondition alwaysUnmet rfl
      (fun _ => rfl)⟩

/-- A concrete check function: "not yet" on the first probe, an error on
every later probe — so the poll's end pins down when the second probe
ran. -/
def earlyErrorCheck : Nat → Bool × Option Err :=
  fun k => if k = 0 then (false, none) else (false, some (Err.msg ("second probe")))

/-- A concrete condition exposing the spacing between the first and
second probes. -/
def cIntervalCondition : TestCondition :=
  { ConditionType := ("interval-probe"), Status := (""), Reason := (""), Message := (""),
    Timeout := 30000, CheckFunction := some earlyErrorCheck }

/-- C8 counterexample: the second probe runs 100 ms after the first —
the interval is hard-coded at 100 ms, not a configuration input in the
claimed 1 s–5 s range. -/
theorem WaitForCondition_interval_is_100ms :
    waitForConditionRun cIntervalCondition =
      { res := some (Err.msg ("second probe")), calls := 2, elapsed := 100 } ∧
    ¬ (1000 ≤ (waitForConditionRun cIntervalCondition).elapsed) := by
  have h := pollLoop_first_error earlyErrorCheck ("interval-probe")
    (Err.msg ("second probe")) 1 30000 0 0 (by decide) (by decide) (by decide)
  have hrun : waitForConditionRun cIntervalCondition =
      { res := some (Err.msg ("second probe")), calls := 2, elapsed := 100 } := by
    unfold waitForConditionRun
    rw [show cIntervalCondition.CheckFunction = some earlyErrorCheck from rfl,
      show cIntervalCondition.effectiveTimeout = 30000 from rfl,
      show cIntervalCondition.ConditionType = ("interval-probe") from rfl, h]
  exact ⟨hrun, by rw [hrun]; decide⟩

end CloudProviderTesting
